import Mathlib

/-!
# StudyWave attendance — verification of the enrollment / attendance core

Shallow embedding of the seat-bounded enrollment and QR attendance subsystem:

* `Course` / `Enrollment` — the course document with its `enrolledStudents`
  sub-records (src/unnamed/part_007, `courseSchema`).
* `enrollStudent` / `dropStudent` — the instance methods of the course model
  (part_007 lines 180–222).
* `recordAttendance`, `generateAttendanceQR`, `getAttendanceStats` — the
  attendance controller functions embedded in src/backend/models/User.js
  (lines 473–586, 589–634, 779–870), with the in-memory `attendanceRecords`
  map modelled as an association list.
* `generateQRCodeData` — src/unnamed/part_004 lines 17–28.

Ids (Mongo ObjectIds) are modelled as `Nat`; timestamps (`Date`) as `Nat`
milliseconds since the epoch; `Date.prototype.toDateString` (calendar-day
granularity) as integer division by the number of milliseconds per day.
JavaScript number arithmetic in the statistics is modelled by exact
rationals `ℚ`, with `Math.round` as Mathlib's `round` (both are ⌊x + 1/2⌋).
-/

/-- Enrollment status enum of the `enrolledStudents` sub-schema:
`'enrolled' | 'dropped' | 'completed'`. -/
inductive EnrollStatus where
  | enrolled
  | dropped
  | completed
deriving DecidableEq, Repr

/-- One element of `course.enrolledStudents`: `{ student, enrolledAt, status }`. -/
structure Enrollment where
  student : Nat
  enrolledAt : Nat
  status : EnrollStatus
deriving DecidableEq, Repr

/-- The fields of the course document that the enrollment / attendance core
reads or writes (part_007 `courseSchema`). -/
structure Course where
  id : Nat
  capacity : Nat
  courseCode : String
  professor : Nat
  isActive : Bool
  isPublished : Bool
  enrolledStudents : List Enrollment
deriving DecidableEq, Repr

/-- Virtual `enrolledCount`: number of `enrolledStudents` entries whose
status is `'enrolled'` (part_007 lines 150–152). -/
def Course.enrolledCount (c : Course) : Nat :=
  (c.enrolledStudents.filter (fun e => e.status == EnrollStatus.enrolled)).length

/-- Errors thrown by `enrollStudent` / `dropStudent`:
`alreadyEnrolled` = "Student is already enrolled in this course",
`capacityExceeded` = "Course is at full capacity",
`notEnrolled` = "Student is not enrolled in this course". -/
inductive EnrollError where
  | alreadyEnrolled
  | capacityExceeded
  | notEnrolled
deriving DecidableEq, Repr

/-- `enrolledStudents.find(e => e.student === studentId)`: first record of the
given student, any status. -/
def findEnrollment (l : List Enrollment) (sid : Nat) : Option Enrollment :=
  l.find? (fun e => e.student == sid)

/-- In-place mutation of the record returned by `find`: set the first record
of `sid` to `status = 'enrolled'`, `enrolledAt = now`. -/
def reactivateFirst : List Enrollment → Nat → Nat → List Enrollment
  | [], _, _ => []
  | e :: es, sid, now =>
    if e.student == sid then { e with status := EnrollStatus.enrolled, enrolledAt := now } :: es
    else e :: reactivateFirst es sid now

/-- In-place mutation of the record returned by `find`: set the first record
of `sid` to `status = 'dropped'`. -/
def dropFirst : List Enrollment → Nat → List Enrollment
  | [], _ => []
  | e :: es, sid =>
    if e.student == sid then { e with status := EnrollStatus.dropped } :: es
    else e :: dropFirst es sid

/-- `courseSchema.methods.enrollStudent` (part_007 lines 180–208).
If a record for the student exists: error when it is `'enrolled'`, otherwise
reactivate it (no capacity check on this path). If no record exists: check
`enrolledCount >= capacity`, else push `{ student, status: 'enrolled' }`
(with `enrolledAt` defaulting to now). -/
def enrollStudent (c : Course) (sid : Nat) (now : Nat) : Except EnrollError Course :=
  match findEnrollment c.enrolledStudents sid with
  | some e =>
    if e.status == EnrollStatus.enrolled then
      Except.error EnrollError.alreadyEnrolled
    else
      Except.ok { c with enrolledStudents := reactivateFirst c.enrolledStudents sid now }
  | none =>
    if c.capacity ≤ c.enrolledCount then
      Except.error EnrollError.capacityExceeded
    else
      Except.ok { c with enrolledStudents :=
        c.enrolledStudents ++ [⟨sid, now, EnrollStatus.enrolled⟩] }

/-- `courseSchema.methods.dropStudent` (part_007 lines 211–222). Errors only
when the student has no record of any status; otherwise sets the first
record's status to `'dropped'`, whatever it was before. -/
def dropStudent (c : Course) (sid : Nat) : Except EnrollError Course :=
  match findEnrollment c.enrolledStudents sid with
  | none => Except.error EnrollError.notEnrolled
  | some _ => Except.ok { c with enrolledStudents := dropFirst c.enrolledStudents sid }

/-! ## Attendance session issuer and recorder -/

/-- Milliseconds per calendar day; `calendarDate` models
`Date.prototype.toDateString` at day granularity. -/
def msPerDay : Nat := 86400000

/-- The calendar date of a millisecond timestamp. -/
def calendarDate (t : Nat) : Nat := t / msPerDay

/-- The parsed QR payload produced by `generateQRCodeData` (part_004 lines
17–28) and consumed by `recordAttendance`. `courseId` is `none` when the
field is absent / falsy; an empty `courseCode` models a falsy one. The
`timestamp` field is the issuance time (ISO string in the source). -/
structure QRPayload where
  type : String
  courseId : Option Nat
  courseCode : String
  sessionId : String
  timestamp : Nat
deriving DecidableEq, Repr

/-- `generateQRCodeData(course)` (part_004): the payload serialized into the
QR code, with a fresh random `sessionId` and `timestamp = now`. -/
def generateQRCodeData (course : Course) (now : Nat) (freshSessionId : String) : QRPayload :=
  { type := "course_attendance"
    courseId := some course.id
    courseCode := course.courseCode
    sessionId := freshSessionId
    timestamp := now }

/-- Composite key of the in-memory `attendanceRecords` map:
`` `${course._id}_${req.user._id}_${today}` `` with `today = new
Date().toDateString()`. Ids are hex ObjectIds, so the underscore-joined
string is in bijection with this triple. -/
structure AttKey where
  courseId : Nat
  studentId : Nat
  day : Nat
deriving DecidableEq, Repr

/-- The value stored in `attendanceRecords` (User.js lines 544–552). -/
structure AttendanceRecord where
  courseId : Nat
  studentId : Nat
  date : Nat
  status : String
  qrSessionId : String
  recordedAt : Nat
deriving DecidableEq, Repr

/-- The process-local `attendanceRecords` `Map`, as an insertion-ordered
association list. -/
abbrev AttStore := List (AttKey × AttendanceRecord)

/-- `attendanceRecords.has(key)`. -/
def AttStore.hasKey (s : AttStore) (k : AttKey) : Bool :=
  (s.find? (fun p => p.1 == k)).isSome

/-- Error outcomes of `recordAttendance` (User.js lines 473–586):
`invalidDescriptor` = the 400s for missing/unparsable/mis-shaped payloads,
`courseNotFound` = 404 "Course not found",
`courseUnavailable` = 400 "Course is not available for attendance",
`notEnrolled` = 403 "You are not enrolled in this course",
`duplicateAttendance` = 400 "Attendance already recorded for today".
The source has no expiry-related outcome at all. -/
inductive AttError where
  | invalidDescriptor
  | courseNotFound
  | courseUnavailable
  | notEnrolled
  | duplicateAttendance
deriving DecidableEq, Repr

/-- `recordAttendance` (User.js lines 473–586). `findCourse` models
`Course.findById`. Checks, in source order: payload structure
(`courseId` truthy, `courseCode` truthy, `type === 'course_attendance'`);
course exists; `isActive && isPublished`; the student holds an `'enrolled'`
record; no record yet under today's key. On success it inserts the record
into the map and returns it. The payload's `timestamp`/`sessionId` are never
compared against anything. -/
def recordAttendance (findCourse : Nat → Option Course) (studentId : Nat)
    (qr : QRPayload) (now : Nat) (store : AttStore) :
    Except AttError (AttStore × AttendanceRecord) :=
  match qr.courseId with
  | none => Except.error AttError.invalidDescriptor
  | some cid =>
    if qr.courseCode == "" then Except.error AttError.invalidDescriptor
    else if qr.type != "course_attendance" then Except.error AttError.invalidDescriptor
    else
      match findCourse cid with
      | none => Except.error AttError.courseNotFound
      | some course =>
        if ¬(course.isActive && course.isPublished) then Except.error AttError.courseUnavailable
        else
          match findEnrollment course.enrolledStudents studentId with
          | none => Except.error AttError.notEnrolled
          | some enrollment =>
            if enrollment.status != EnrollStatus.enrolled then Except.error AttError.notEnrolled
            else
              let key : AttKey := ⟨course.id, studentId, calendarDate now⟩
              if store.hasKey key then Except.error AttError.duplicateAttendance
              else
                let record : AttendanceRecord :=
                  { courseId := course.id
                    studentId := studentId
                    date := now
                    status := "present"
                    qrSessionId := qr.sessionId
                    recordedAt := now }
                Except.ok (store ++ [(key, record)], record)

/-- Error outcomes of the professor-only endpoints: `notFound` = 404,
`authorizationError` = 403 ("You can only generate QR codes for / view
statistics for your own courses"). -/
inductive OwnerError where
  | notFound
  | authorizationError
deriving DecidableEq, Repr

/-- Successful response of `generateAttendanceQR`: the QR payload plus the
advertised `validUntil = Date.now() + 30 * 60 * 1000`. -/
structure QRIssueResult where
  qrCodeData : QRPayload
  validUntil : Nat
deriving DecidableEq, Repr

/-- `generateAttendanceQR` (User.js lines 589–634): course must exist and
`course.professor` must equal the caller, else 403; then the descriptor is
produced by `generateQRCodeData` and advertised valid for 30 minutes. -/
def generateAttendanceQR (findCourse : Nat → Option Course) (callerId courseId : Nat)
    (now : Nat) (freshSessionId : String) : Except OwnerError QRIssueResult :=
  match findCourse courseId with
  | none => Except.error OwnerError.notFound
  | some course =>
    if course.professor != callerId then Except.error OwnerError.authorizationError
    else
      Except.ok { qrCodeData := generateQRCodeData course now freshSessionId
                  validUntil := now + 30 * 60 * 1000 }

/-! ## Attendance statistics -/

/-- `Math.round(x * 100) / 100` on exact rationals. -/
def round2 (q : ℚ) : ℚ := ((round (q * 100) : ℤ) : ℚ) / 100

/-- One element of `studentStats` (User.js lines 826–843). -/
structure StudentStat where
  student : Nat
  attendedSessions : Nat
  totalSessions : Nat
  attendanceRate : ℚ
deriving DecidableEq, Repr

/-- The `overallStats` / `studentStats` aggregation returned by
`getAttendanceStats`. -/
structure StatsResult where
  totalEnrolledStudents : Nat
  totalSessions : Nat
  studentStats : List StudentStat
  averageAttendanceRate : ℚ
  totalAttendanceRecords : Nat
deriving DecidableEq, Repr

/-- The course-and-range filter of `getAttendanceStats` (User.js lines
806–816): keep records of this course, skipping those before `startDate`
or after `endDate` when those bounds are given. -/
def statsFilter (course : Course) (startDate endDate : Option Nat)
    (store : AttStore) : List AttendanceRecord :=
  (store.map Prod.snd).filter (fun r =>
    r.courseId == course.id
    && (match startDate with | none => true | some s => decide (s ≤ r.date))
    && (match endDate with | none => true | some e => decide (r.date ≤ e)))

/-- `getAttendanceStats` (User.js lines 779–870). After the existence and
ownership checks: `totalSessions` is the size of the `Set` of
`toDateString`s of the filtered records; `studentStats` maps over the
`'enrolled'`-status enrollments only; each student's `attendedSessions`
counts their filtered records; `attendanceRate` is
`(attended / totalSessions) * 100` rounded to two decimals (0 when there
are no sessions); the average is over `studentStats`. -/
def getAttendanceStats (findCourse : Nat → Option Course) (callerId courseId : Nat)
    (startDate endDate : Option Nat) (store : AttStore) :
    Except OwnerError StatsResult :=
  match findCourse courseId with
  | none => Except.error OwnerError.notFound
  | some course =>
    if course.professor != callerId then Except.error OwnerError.authorizationError
    else
      let courseAttendance := statsFilter course startDate endDate store
      let totalSessions := (courseAttendance.map (fun r => calendarDate r.date)).dedup.length
      let enrolledOnly := course.enrolledStudents.filter
        (fun e => e.status == EnrollStatus.enrolled)
      let studentStats := enrolledOnly.map (fun e =>
        let attended := (courseAttendance.filter
          (fun r => r.studentId == e.student)).length
        let rate : ℚ := if totalSessions > 0
          then ((attended : ℚ) / (totalSessions : ℚ)) * 100 else 0
        { student := e.student
          attendedSessions := attended
          totalSessions := totalSessions
          attendanceRate := round2 rate })
      Except.ok
        { totalEnrolledStudents := enrolledOnly.length
          totalSessions := totalSessions
          studentStats := studentStats
          averageAttendanceRate := if studentStats.length > 0
            then round2 ((studentStats.map (fun s => s.attendanceRate)).sum
              / (studentStats.length : ℚ))
            else 0
          totalAttendanceRecords := courseAttendance.length }

/-! ## Interleaved enrollment requests

The enroll endpoint (courseController.js lines 294–352) runs
`Course.findById` (a read of the shared course document), then
`course.enrollStudent(...)`, whose capacity decision is computed from that
snapshot and whose `save()` applies the mutation back to the shared
document (`$push` of the new sub-record, or a positional update of the
reactivated one). Between the two awaits, other requests may run: each
request is modelled as a `read` event (snapshot) and a `commit` event
(decision from the snapshot, effect applied to the current shared state). -/

/-- One in-flight enroll request: the student, the course snapshot taken at
its `read` event, and its eventual response. -/
structure EnrollTask where
  student : Nat
  snapshot : Option Course
  result : Option (Except EnrollError Unit)
deriving Repr

/-- Shared course document plus the in-flight requests. -/
structure ConcState where
  course : Course
  tasks : List EnrollTask
deriving Repr

/-- A scheduler event: request `i` performs its read, or its
check-and-save commit at time `now`. -/
inductive ConcEvent where
  | read (i : Nat)
  | commit (i : Nat) (now : Nat)
deriving Repr

/-- Replace the `i`-th element by `f` of it (out-of-range: unchanged). -/
def listModify {α : Type} (f : α → α) : Nat → List α → List α
  | _, [] => []
  | 0, a :: as => f a :: as
  | n + 1, a :: as => a :: listModify f n as

/-- Store request `i`'s snapshot. -/
def ConcState.withSnapshot (s : ConcState) (i : Nat) : ConcState :=
  { s with tasks := listModify (fun t => { t with snapshot := some s.course }) i s.tasks }

/-- Store request `i`'s response. -/
def ConcState.withResult (s : ConcState) (i : Nat) (r : Except EnrollError Unit) : ConcState :=
  { s with tasks := listModify (fun t => { t with result := some r }) i s.tasks }

/-- Apply a mutation to the shared course document. -/
def ConcState.withEnrollments (s : ConcState) (l : List Enrollment) : ConcState :=
  { s with course := { s.course with enrolledStudents := l } }

/-- One scheduler step. A `commit` before the task's `read`, or for a
missing task, is a no-op (not a real schedule). The capacity decision is
taken on the task's snapshot — exactly the source's read-then-write — while
the effect (the `$push` of the new sub-record, or the positional update of
the reactivated one) lands on the current shared document. -/
def concStep (s : ConcState) : ConcEvent → ConcState
  | ConcEvent.read i => s.withSnapshot i
  | ConcEvent.commit i now =>
    match s.tasks.get? i with
    | none => s
    | some t =>
      match t.snapshot with
      | none => s
      | some snap =>
        match findEnrollment snap.enrolledStudents t.student with
        | some e =>
          if e.status == EnrollStatus.enrolled then
            s.withResult i (Except.error EnrollError.alreadyEnrolled)
          else
            (s.withEnrollments
              (reactivateFirst s.course.enrolledStudents t.student now)).withResult
              i (Except.ok ())
        | none =>
          if snap.capacity ≤ snap.enrolledCount then
            s.withResult i (Except.error EnrollError.capacityExceeded)
          else
            (s.withEnrollments
              (s.course.enrolledStudents ++ [⟨t.student, now, EnrollStatus.enrolled⟩])).withResult
              i (Except.ok ())

/-- Run a schedule of events. -/
def runSchedule (s : ConcState) (evs : List ConcEvent) : ConcState :=
  evs.foldl concStep s

instance {ε α : Type} [DecidableEq ε] [DecidableEq α] : DecidableEq (Except ε α)
  | Except.ok x, Except.ok y => decidable_of_iff (x = y) (by simp)
  | Except.ok _, Except.error _ => Decidable.isFalse (by simp)
  | Except.error _, Except.ok _ => Decidable.isFalse (by simp)
  | Except.error x, Except.error y => decidable_of_iff (x = y) (by simp)

/-! ## Concrete scenarios used by the closed theorems and witnesses -/

/-- Capacity-1 course: student 10 enrolled, student 11 previously dropped.
It satisfies the capacity invariant (`enrolledCount = 1 ≤ 1`). -/
def c1Course : Course :=
  { id := 1, capacity := 1, courseCode := "CS101", professor := 9
    isActive := true, isPublished := true
    enrolledStudents := [⟨10, 0, EnrollStatus.enrolled⟩, ⟨11, 0, EnrollStatus.dropped⟩] }

/-- The course state after `enrollStudent c1Course 11 5`. -/
def c1After : Course :=
  { c1Course with
    enrolledStudents := [⟨10, 0, EnrollStatus.enrolled⟩, ⟨11, 5, EnrollStatus.enrolled⟩] }

/-- Capacity-1 course at full capacity, with a dropped record for student 21. -/
def c2Course : Course :=
  { id := 2, capacity := 1, courseCode := "CS102", professor := 9
    isActive := true, isPublished := true
    enrolledStudents := [⟨20, 0, EnrollStatus.enrolled⟩, ⟨21, 0, EnrollStatus.dropped⟩] }

/-- The course state after `enrollStudent c2Course 21 7`. -/
def c2After : Course :=
  { c2Course with
    enrolledStudents := [⟨20, 0, EnrollStatus.enrolled⟩, ⟨21, 7, EnrollStatus.enrolled⟩] }

/-- Active published course of professor 9 with student 30 enrolled. -/
def c3Course : Course :=
  { id := 3, capacity := 10, courseCode := "CS103", professor := 9
    isActive := true, isPublished := true
    enrolledStudents := [⟨30, 0, EnrollStatus.enrolled⟩] }

/-- `Course.findById` over a one-course collection holding `c3Course`. -/
def c3Find : Nat → Option Course :=
  fun n => if n == 3 then some c3Course else none

/-- The descriptor issued for `c3Course` at time 0. -/
def c3QR : QRPayload := generateQRCodeData c3Course 0 "sess3"

/-- The attendance record stored for the expired submission at t = 31 min. -/
def c3Rec : AttendanceRecord :=
  { courseId := 3, studentId := 30, date := 1860000, status := "present"
    qrSessionId := "sess3", recordedAt := 1860000 }

/-- Empty capacity-1 course for the concurrent-enrollment schedule. -/
def c9Course : Course :=
  { id := 4, capacity := 1, courseCode := "CS104", professor := 9
    isActive := true, isPublished := true, enrolledStudents := [] }

/-- Final state of the schedule read 0, read 1, commit 0, commit 1 over two
fresh students enrolling into `c9Course`. -/
def c9Final : ConcState :=
  runSchedule ⟨c9Course, [⟨1, none, none⟩, ⟨2, none, none⟩]⟩
    [ConcEvent.read 0, ConcEvent.read 1, ConcEvent.commit 0 5, ConcEvent.commit 1 6]

/-- Course of professor 9 with student 40 enrolled, used by the
duplicate-attendance witness. -/
def w4Course : Course :=
  { id := 5, capacity := 3, courseCode := "CS105", professor := 9
    isActive := true, isPublished := true
    enrolledStudents := [⟨40, 0, EnrollStatus.enrolled⟩] }

/-- One-course collection holding `w4Course`. -/
def w4Find : Nat → Option Course :=
  fun n => if n == 5 then some w4Course else none

/-- First valid descriptor presented by student 40. -/
def w4QR1 : QRPayload := ⟨"course_attendance", some 5, "CS105", "sessA", 0⟩

/-- A second, different valid descriptor for the same course and day. -/
def w4QR2 : QRPayload := ⟨"course_attendance", some 5, "CS105", "sessB", 500⟩

/-- The record stored by the first submission at t = 1000 ms. -/
def w4Rec1 : AttendanceRecord := ⟨5, 40, 1000, "present", "sessA", 1000⟩

/-- Course of professor 9 with courseCode CS106 and student 50 enrolled,
used by the descriptor-identity witness. -/
def w10Course : Course :=
  { id := 6, capacity := 3, courseCode := "CS106", professor := 9
    isActive := true, isPublished := true
    enrolledStudents := [⟨50, 0, EnrollStatus.enrolled⟩] }

/-- One-course collection holding `w10Course`. -/
def w10Find : Nat → Option Course :=
  fun n => if n == 6 then some w10Course else none

/-- A payload whose `courseCode` does not match the course's actual code
and whose `sessionId` was never issued by anyone. -/
def w10QR : QRPayload := ⟨"course_attendance", some 6, "WRONG999", "made-up-session", 0⟩

/-- The record stored for `w10QR` at t = 3000 ms. -/
def w10Rec : AttendanceRecord := ⟨6, 50, 3000, "present", "made-up-session", 3000⟩

/-- Course owned by professor 9, used by the ownership witness. -/
def w8Course : Course :=
  { id := 7, capacity := 5, courseCode := "CS107", professor := 9
    isActive := true, isPublished := true
    enrolledStudents := [⟨60, 0, EnrollStatus.enrolled⟩] }

/-- One-course collection holding `w8Course`. -/
def w8Find : Nat → Option Course :=
  fun n => if n == 7 then some w8Course else none

/-- Course with student 70 enrolled, used for the drop scenarios. -/
def c5Course : Course :=
  { id := 8, capacity := 5, courseCode := "CS108", professor := 9
    isActive := true, isPublished := true
    enrolledStudents := [⟨70, 0, EnrollStatus.enrolled⟩] }

/-- `c5Course` after student 70 dropped. -/
def c5Dropped : Course :=
  { c5Course with enrolledStudents := [⟨70, 0, EnrollStatus.dropped⟩] }

/-- The course with a fresh `'enrolled'` record for `sid` appended. -/
def pushEnrollment (c : Course) (sid now : Nat) : Course :=
  { c with enrolledStudents := c.enrolledStudents ++ [⟨sid, now, EnrollStatus.enrolled⟩] }

/-- The course with a `'dropped'` record for `sid` appended (the state after
enrolling a fresh student at `now` and then dropping them). -/
def pushThenDrop (c : Course) (sid now : Nat) : Course :=
  { c with enrolledStudents := c.enrolledStudents ++ [⟨sid, now, EnrollStatus.dropped⟩] }

/-- Course of capacity 2 with one enrolled student, used by the
enroll–drop–enroll witness. -/
def w6Course : Course :=
  { id := 10, capacity := 2, courseCode := "CS110", professor := 9
    isActive := true, isPublished := true
    enrolledStudents := [⟨80, 0, EnrollStatus.enrolled⟩] }

/-- Course of professor 9 with student 90 enrolled and student 91 dropped,
used by the statistics witness. -/
def w7Course : Course :=
  { id := 11, capacity := 5, courseCode := "CS111", professor := 9
    isActive := true, isPublished := true
    enrolledStudents := [⟨90, 0, EnrollStatus.enrolled⟩, ⟨91, 0, EnrollStatus.dropped⟩] }

/-- One-course collection holding `w7Course`. -/
def w7Find : Nat → Option Course :=
  fun n => if n == 11 then some w7Course else none

/-- Three attendance facts on `w7Course`: students 90 and 91 on day 0, and
the (by now dropped) student 91 alone on day 1 — so day 1 exists as a
session only through a dropped student's record. -/
def w7Store : AttStore :=
  [(⟨11, 90, 0⟩, ⟨11, 90, 100, "present", "sA", 100⟩),
   (⟨11, 91, 0⟩, ⟨11, 91, 200, "present", "sA", 200⟩),
   (⟨11, 91, 1⟩, ⟨11, 91, 86400005, "present", "sB", 86400005⟩)]

/-- The aggregation `getAttendanceStats` returns on `w7Store`: 2 distinct
session days; only the enrolled student 90 in `studentStats`, with 1 of 2
sessions attended (rate 50%). -/
def w7Res : StatsResult :=
  { totalEnrolledStudents := 1
    totalSessions := 2
    studentStats := [{ student := 90, attendedSessions := 1, totalSessions := 2
                       attendanceRate := 50 }]
    averageAttendanceRate := 50
    totalAttendanceRecords := 3 }

/-! ## Theorems -/

/-- C1: the spec's invariant — the number of `'enrolled'` records never
exceeds capacity in states reachable by Enroll/Drop — is violated by the
code: from a state satisfying it (capacity 1, one enrolled student, one
dropped record), a single `enrollStudent` reactivates the dropped record
without any capacity check and yields `enrolledCount = 2 > capacity = 1`. -/
theorem enroll_reactivation_breaks_capacity_invariant :
    c1Course.enrolledCount ≤ c1Course.capacity ∧
    enrollStudent c1Course 11 5 = Except.ok c1After ∧
    c1After.capacity < c1After.enrolledCount := by
  refine ⟨by decide, by decide, by decide⟩

/-- C2: the claim says Enroll on a holder of a `'dropped'` record must fail
with CapacityExceeded when the course is at capacity. The code instead
reactivates unconditionally: on the full `c2Course`, `enrollStudent`
succeeds, refreshes `enrolledAt` to now, appends no new record, and does
not return CapacityExceeded. -/
theorem reactivation_skips_capacity_check :
    c2Course.capacity ≤ c2Course.enrolledCount ∧
    enrollStudent c2Course 21 7 = Except.ok c2After ∧
    enrollStudent c2Course 21 7 ≠ Except.error EnrollError.capacityExceeded ∧
    c2After.enrolledStudents.length = c2Course.enrolledStudents.length := by
  refine ⟨by decide, by decide, by decide, by decide⟩

/-- C3: the claim says a submission after issuedAt + 30 minutes is rejected
with ExpiredSessionError. The code never reads the descriptor's timestamp:
a descriptor issued at t = 0 (advertised `validUntil` = 1 800 000 ms) and
submitted at t = 1 860 000 ms (31 minutes) is recorded successfully — the
recorder's error type has no expiry outcome at all. -/
theorem expired_descriptor_still_recorded :
    generateAttendanceQR c3Find 9 3 0 "sess3" =
      Except.ok { qrCodeData := c3QR, validUntil := 1800000 } ∧
    1800000 < 1860000 ∧
    recordAttendance c3Find 30 c3QR 1860000 [] =
      Except.ok ([(⟨3, 30, 0⟩, c3Rec)], c3Rec) := by
  refine ⟨by decide, by decide, by decide⟩

/-- C9: under the interleaving read 0, read 1, commit 0, commit 1 of two
fresh students enrolling into the empty capacity-1 `c9Course`, both
requests observe `enrolledCount = 0` in their snapshots, both succeed, and
the final enrolled count is 2 > capacity — the claim's "exactly C succeed,
N−C receive CapacityExceeded, count never exceeds C" fails on the code's
read-then-write enrollment. -/
theorem concurrent_enroll_oversells :
    c9Course.capacity = 1 ∧
    (c9Final.tasks.map (fun t => t.result)) =
      [some (Except.ok ()), some (Except.ok ())] ∧
    c9Final.course.enrolledCount = 2 := by
  refine ⟨by decide, by decide, by decide⟩

/-! ### Helper lemmas for the attendance recorder -/

/-- Success characterization of `recordAttendance`: with a structurally
valid payload resolving to an active published course, an `'enrolled'`
student, and no record yet for today's key, the call appends exactly one
record under the key (courseId, studentId, today) and returns it. Nothing
constrains the payload's `sessionId`, its `timestamp`, or the relation of
its `courseCode` to the course's actual code. -/
theorem recordAttendance_ok (findCourse : Nat → Option Course) (studentId : Nat)
    (qr : QRPayload) (now : Nat) (store : AttStore) (cid : Nat) (course : Course)
    (en : Enrollment)
    (hcid : qr.courseId = some cid)
    (hcode : qr.courseCode ≠ "")
    (htype : qr.type = "course_attendance")
    (hfind : findCourse cid = some course)
    (hact : course.isActive = true)
    (hpub : course.isPublished = true)
    (hen : findEnrollment course.enrolledStudents studentId = some en)
    (hst : en.status = EnrollStatus.enrolled)
    (hfresh : store.hasKey ⟨course.id, studentId, calendarDate now⟩ = false) :
    recordAttendance findCourse studentId qr now store =
      Except.ok (store ++ [(⟨course.id, studentId, calendarDate now⟩,
          ⟨course.id, studentId, now, "present", qr.sessionId, now⟩)],
        ⟨course.id, studentId, now, "present", qr.sessionId, now⟩) := by
  simp only [recordAttendance, hcid, htype, hfind, hact, hpub, hen, hst, hfresh]
  simp [hcode]

/-- A call whose key is already present in the store fails with
`duplicateAttendance` (and, returning an error, stores nothing). -/
theorem recordAttendance_duplicate (findCourse : Nat → Option Course) (studentId : Nat)
    (qr : QRPayload) (now : Nat) (store : AttStore) (cid : Nat) (course : Course)
    (en : Enrollment)
    (hcid : qr.courseId = some cid)
    (hcode : qr.courseCode ≠ "")
    (htype : qr.type = "course_attendance")
    (hfind : findCourse cid = some course)
    (hact : course.isActive = true)
    (hpub : course.isPublished = true)
    (hen : findEnrollment course.enrolledStudents studentId = some en)
    (hst : en.status = EnrollStatus.enrolled)
    (hdup : store.hasKey ⟨course.id, studentId, calendarDate now⟩ = true) :
    recordAttendance findCourse studentId qr now store =
      Except.error AttError.duplicateAttendance := by
  simp only [recordAttendance, hcid, htype, hfind, hact, hpub, hen, hst, hdup]
  simp [hcode]

/-- `hasKey` is membership of the key among the stored keys. -/
theorem hasKey_false_iff (s : AttStore) (k : AttKey) :
    s.hasKey k = false ↔ k ∉ s.map Prod.fst := by
  simp [AttStore.hasKey, List.find?_isSome, List.mem_map]
  constructor
  · intro h x hx
    exact h k x hx rfl
  · intro h a b hab hak
    subst hak
    exact h b hab

/-- Appending an entry makes its key present. -/
theorem hasKey_append_self (s : AttStore) (k : AttKey) (r : AttendanceRecord) :
    (s ++ [(k, r)]).hasKey k = true := by
  simp [AttStore.hasKey, List.find?_isSome]

/-- C4: for a fixed (courseId, studentId, calendar date) key, after a
successful `recordAttendance` a second sequential call with the same key —
even with a different valid descriptor (`qr2`) — fails with
`duplicateAttendance`; since an error branch performs no `Map.set`, the
first call's record is untouched, and the store keeps at most one record
per key (key-uniqueness is preserved by the insert, which only happens when
the key is absent). -/
theorem attendance_duplicate_same_day (findCourse : Nat → Option Course)
    (sid : Nat) (qr1 qr2 : QRPayload) (now1 now2 : Nat) (store : AttStore)
    (cid : Nat) (course : Course) (en : Enrollment)
    (hcid1 : qr1.courseId = some cid) (hcode1 : qr1.courseCode ≠ "")
    (htype1 : qr1.type = "course_attendance")
    (hcid2 : qr2.courseId = some cid) (hcode2 : qr2.courseCode ≠ "")
    (htype2 : qr2.type = "course_attendance")
    (hfind : findCourse cid = some course)
    (hact : course.isActive = true) (hpub : course.isPublished = true)
    (hen : findEnrollment course.enrolledStudents sid = some en)
    (hst : en.status = EnrollStatus.enrolled)
    (hfresh : store.hasKey ⟨course.id, sid, calendarDate now1⟩ = false)
    (hday : calendarDate now2 = calendarDate now1)
    (hnodup : (store.map Prod.fst).Nodup) :
    recordAttendance findCourse sid qr1 now1 store =
      Except.ok (store ++ [(⟨course.id, sid, calendarDate now1⟩,
          ⟨course.id, sid, now1, "present", qr1.sessionId, now1⟩)],
        ⟨course.id, sid, now1, "present", qr1.sessionId, now1⟩) ∧
    recordAttendance findCourse sid qr2 now2
        (store ++ [(⟨course.id, sid, calendarDate now1⟩,
          ⟨course.id, sid, now1, "present", qr1.sessionId, now1⟩)]) =
      Except.error AttError.duplicateAttendance ∧
    ((store ++ [((⟨course.id, sid, calendarDate now1⟩ : AttKey),
        (⟨course.id, sid, now1, "present", qr1.sessionId, now1⟩ : AttendanceRecord))]).map
      Prod.fst).Nodup := by
  refine ⟨recordAttendance_ok findCourse sid qr1 now1 store cid course en
    hcid1 hcode1 htype1 hfind hact hpub hen hst hfresh, ?_, ?_⟩
  · apply recordAttendance_duplicate findCourse sid qr2 now2 _ cid course en
      hcid2 hcode2 htype2 hfind hact hpub hen hst
    rw [hday]
    exact hasKey_append_self store _ _
  · have hk : (⟨course.id, sid, calendarDate now1⟩ : AttKey) ∉ store.map Prod.fst :=
      (hasKey_false_iff store _).mp hfresh
    rw [List.map_append]
    refine List.Nodup.append hnodup (by simp) ?_
    intro a ha hb
    simp only [List.map_cons, List.map_nil, List.mem_singleton] at hb
    subst hb
    exact hk ha

/-- C4 witness: student 40 submits `w4QR1` at t = 1000 ms (stored), then the
different valid descriptor `w4QR2` at t = 2000 ms the same day: the second
call returns `duplicateAttendance` and the store still holds exactly the
first record. -/
theorem attendance_duplicate_same_day_witness :
    recordAttendance w4Find 40 w4QR1 1000 [] =
      Except.ok ([((⟨5, 40, 0⟩ : AttKey), w4Rec1)], w4Rec1) ∧
    recordAttendance w4Find 40 w4QR2 2000 [((⟨5, 40, 0⟩ : AttKey), w4Rec1)] =
      Except.error AttError.duplicateAttendance ∧
    (([((⟨5, 40, 0⟩ : AttKey), w4Rec1)] : AttStore).map Prod.fst).Nodup :=
  attendance_duplicate_same_day w4Find 40 w4QR1 w4QR2 1000 2000 [] 5 w4Course
    ⟨40, 0, EnrollStatus.enrolled⟩ rfl (by decide) rfl rfl (by decide) rfl rfl rfl rfl
    rfl rfl rfl rfl (by simp)

/-- C10: `recordAttendance` never verifies the descriptor's `sessionId` or
`courseCode` against anything: with the structural checks passed (type tag
`course_attendance`, some `courseId` resolving to an active published
course, enrolled student, no same-day record), the call succeeds with no
hypothesis whatsoever relating `qr.courseCode` to the course's actual
`courseCode`, and the arbitrary `qr.sessionId` is stored verbatim in the
record's `qrSessionId`. -/
theorem recordAttendance_ignores_descriptor_identity (findCourse : Nat → Option Course)
    (sid : Nat) (qr : QRPayload) (now : Nat) (store : AttStore)
    (cid : Nat) (course : Course) (en : Enrollment)
    (hcid : qr.courseId = some cid)
    (hcode : qr.courseCode ≠ "")
    (htype : qr.type = "course_attendance")
    (hfind : findCourse cid = some course)
    (hact : course.isActive = true)
    (hpub : course.isPublished = true)
    (hen : findEnrollment course.enrolledStudents sid = some en)
    (hst : en.status = EnrollStatus.enrolled)
    (hfresh : store.hasKey ⟨course.id, sid, calendarDate now⟩ = false) :
    recordAttendance findCourse sid qr now store =
      Except.ok (store ++ [((⟨course.id, sid, calendarDate now⟩ : AttKey),
          (⟨course.id, sid, now, "present", qr.sessionId, now⟩ : AttendanceRecord))],
        ⟨course.id, sid, now, "present", qr.sessionId, now⟩) ∧
    (⟨course.id, sid, now, "present", qr.sessionId, now⟩ : AttendanceRecord).qrSessionId
      = qr.sessionId :=
  ⟨recordAttendance_ok findCourse sid qr now store cid course en
    hcid hcode htype hfind hact hpub hen hst hfresh, rfl⟩

/-- C10 witness: the payload `w10QR` carries courseCode "WRONG999" (the
course's real code is "CS106") and a `sessionId` no issuer ever produced;
recording still succeeds and stores that `sessionId`. -/
theorem recordAttendance_ignores_descriptor_identity_witness :
    w10QR.courseCode ≠ w10Course.courseCode ∧
    (recordAttendance w10Find 50 w10QR 3000 [] =
      Except.ok ([((⟨6, 50, 0⟩ : AttKey), w10Rec)], w10Rec) ∧
    w10Rec.qrSessionId = w10QR.sessionId) :=
  ⟨by decide,
    recordAttendance_ignores_descriptor_identity w10Find 50 w10QR 3000 [] 6 w10Course
      ⟨50, 0, EnrollStatus.enrolled⟩ rfl (by decide) rfl rfl rfl rfl rfl rfl rfl⟩

/-- C8: for every course, a caller other than the owning instructor gets an
authorization error — and hence no descriptor and no statistics — from both
`generateAttendanceQR` and `getAttendanceStats`; the owning instructor
passes the ownership check and both calls return a result. -/
theorem owner_only_qr_and_stats (findCourse : Nat → Option Course)
    (callerId courseId now : Nat) (sess : String)
    (startDate endDate : Option Nat) (store : AttStore) (course : Course)
    (hfind : findCourse courseId = some course) :
    (callerId ≠ course.professor →
      generateAttendanceQR findCourse callerId courseId now sess =
        Except.error OwnerError.authorizationError ∧
      getAttendanceStats findCourse callerId courseId startDate endDate store =
        Except.error OwnerError.authorizationError) ∧
    (callerId = course.professor →
      (∃ r, generateAttendanceQR findCourse callerId courseId now sess = Except.ok r) ∧
      (∃ st, getAttendanceStats findCourse callerId courseId startDate endDate store =
        Except.ok st)) := by
  constructor
  · intro hne
    have hb : (course.professor != callerId) = true := by
      simp only [bne_iff_ne, ne_eq]
      exact fun h => hne h.symm
    constructor
    · simp [generateAttendanceQR, hfind, hb]
    · simp [getAttendanceStats, hfind, hb]
  · intro heq
    have hb : (course.professor != callerId) = false := by
      simp [heq]
    constructor
    · unfold generateAttendanceQR
      simp only [hfind]
      rw [hb]
      exact ⟨_, rfl⟩
    · unfold getAttendanceStats
      simp only [hfind]
      rw [hb]
      exact ⟨_, rfl⟩

/-- C8 witness: professor 9 owns `w8Course`; caller 8 receives
authorization errors from both endpoints, caller 9 gets results from both. -/
theorem owner_only_qr_and_stats_witness :
    generateAttendanceQR w8Find 8 7 0 "s" = Except.error OwnerError.authorizationError ∧
    getAttendanceStats w8Find 8 7 none none [] = Except.error OwnerError.authorizationError ∧
    (∃ r, generateAttendanceQR w8Find 9 7 0 "s" = Except.ok r) ∧
    (∃ st, getAttendanceStats w8Find 9 7 none none [] = Except.ok st) :=
  ⟨((owner_only_qr_and_stats w8Find 8 7 0 "s" none none [] w8Course rfl).1 (by decide)).1,
   ((owner_only_qr_and_stats w8Find 8 7 0 "s" none none [] w8Course rfl).1 (by decide)).2,
   ((owner_only_qr_and_stats w8Find 9 7 0 "s" none none [] w8Course rfl).2 rfl).1,
   ((owner_only_qr_and_stats w8Find 9 7 0 "s" none none [] w8Course rfl).2 rfl).2⟩

/-- After `dropFirst`, the student's first record is found with status
`'dropped'`. -/
theorem findEnrollment_dropFirst (l : List Enrollment) (sid : Nat) (e : Enrollment)
    (h : findEnrollment l sid = some e) :
    findEnrollment (dropFirst l sid) sid =
      some { e with status := EnrollStatus.dropped } := by
  induction l with
  | nil => simp [findEnrollment] at h
  | cons a as ih =>
    by_cases ha : a.student = sid
    · simp [findEnrollment, List.find?, dropFirst, ha] at h ⊢
      subst h
      exact ⟨ha.symm, rfl⟩
    · simp only [findEnrollment, List.find?, dropFirst] at h ⊢
      rw [show (a.student == sid) = false by simp [ha]] at h ⊢
      simpa [findEnrollment, List.find?,
        show (a.student == sid) = false by simp [ha]] using ih h

/-- Dropping an already-dropped first record changes nothing. -/
theorem dropFirst_idem (l : List Enrollment) (sid : Nat) :
    dropFirst (dropFirst l sid) sid = dropFirst l sid := by
  induction l with
  | nil => rfl
  | cons a as ih =>
    by_cases ha : a.student = sid
    · simp [dropFirst, ha]
    · simp [dropFirst, ha, ih]

/-- C5 counterexample: the claim says an immediately repeated Drop after a
successful Drop reports NotEnrolled. In the code the second `dropStudent`
finds the `'dropped'` record (the precondition only requires *some* record),
sets its status to `'dropped'` again and succeeds — it does not return
NotEnrolled. -/
theorem double_drop_succeeds_silently :
    dropStudent c5Course 70 = Except.ok c5Dropped ∧
    dropStudent c5Dropped 70 = Except.ok c5Dropped ∧
    dropStudent c5Dropped 70 ≠ Except.error EnrollError.notEnrolled := by
  refine ⟨by decide, by decide, by decide⟩

/-- C5 amended: Drop fails with NotEnrolled exactly when the student holds
no enrollment record of any status; after a successful Drop, a repeated
Drop finds the now-`'dropped'` record and succeeds again with the state
unchanged (silently idempotent), rather than reporting NotEnrolled. -/
theorem drop_precondition_and_double_drop (c : Course) (sid : Nat) :
    (findEnrollment c.enrolledStudents sid = none →
      dropStudent c sid = Except.error EnrollError.notEnrolled) ∧
    ∀ c', dropStudent c sid = Except.ok c' →
      dropStudent c' sid = Except.ok c' ∧
      ∀ e, findEnrollment c'.enrolledStudents sid = some e →
        e.status = EnrollStatus.dropped := by
  constructor
  · intro h
    simp [dropStudent, h]
  · intro c' h
    cases hfe : findEnrollment c.enrolledStudents sid with
    | none => simp [dropStudent, hfe] at h
    | some e0 =>
      simp only [dropStudent, hfe] at h
      have hc' : c' = { c with enrolledStudents := dropFirst c.enrolledStudents sid } := by
        exact (Except.ok.injEq _ _).mp h.symm |>.symm ▸ rfl
      subst hc'
      have hfind' := findEnrollment_dropFirst c.enrolledStudents sid e0 hfe
      constructor
      · simp only [dropStudent]
        rw [hfind']
        simp [dropFirst_idem]
      · intro e he
        rw [hfind'] at he
        cases he
        rfl

/-- C5 witness: dropping student 99, who holds no record on `c5Course`,
reports NotEnrolled; after student 70's successful drop, the repeated drop
succeeds with the state unchanged. -/
theorem drop_precondition_and_double_drop_witness :
    dropStudent c5Course 99 = Except.error EnrollError.notEnrolled ∧
    dropStudent c5Dropped 70 = Except.ok c5Dropped :=
  ⟨(drop_precondition_and_double_drop c5Course 99).1 (by decide),
   ((drop_precondition_and_double_drop c5Course 70).2 c5Dropped (by decide)).1⟩

/-- `find` skips a prefix containing no record of the student. -/
theorem findEnrollment_append_of_none (l l2 : List Enrollment) (sid : Nat)
    (h : findEnrollment l sid = none) :
    findEnrollment (l ++ l2) sid = findEnrollment l2 sid := by
  induction l with
  | nil => rfl
  | cons a as ih =>
    simp only [findEnrollment, List.find?_cons] at h
    cases hx : (a.student == sid) with
    | true => rw [hx] at h; exact absurd h (by simp)
    | false =>
      rw [hx] at h
      simp only [findEnrollment, List.cons_append, List.find?_cons, hx]
      exact ih h

/-- `dropFirst` skips a prefix containing no record of the student. -/
theorem dropFirst_append_of_none (l l2 : List Enrollment) (sid : Nat)
    (h : findEnrollment l sid = none) :
    dropFirst (l ++ l2) sid = l ++ dropFirst l2 sid := by
  induction l with
  | nil => rfl
  | cons a as ih =>
    simp only [findEnrollment, List.find?_cons] at h
    cases hx : (a.student == sid) with
    | true => rw [hx] at h; exact absurd h (by simp)
    | false =>
      rw [hx] at h
      simp only [List.cons_append, dropFirst, hx, Bool.false_eq_true, if_false,
        List.append_eq]
      rw [ih h]

/-- `reactivateFirst` skips a prefix containing no record of the student. -/
theorem reactivateFirst_append_of_none (l l2 : List Enrollment) (sid now : Nat)
    (h : findEnrollment l sid = none) :
    reactivateFirst (l ++ l2) sid now = l ++ reactivateFirst l2 sid now := by
  induction l with
  | nil => rfl
  | cons a as ih =>
    simp only [findEnrollment, List.find?_cons] at h
    cases hx : (a.student == sid) with
    | true => rw [hx] at h; exact absurd h (by simp)
    | false =>
      rw [hx] at h
      simp only [List.cons_append, reactivateFirst, hx, Bool.false_eq_true, if_false,
        List.append_eq]
      rw [ih h]

/-- A prefix with no record of the student contributes nothing to the
student's record filter. -/
theorem filter_student_eq_nil_of_none (l : List Enrollment) (sid : Nat)
    (h : findEnrollment l sid = none) :
    l.filter (fun e => e.student == sid) = [] := by
  rw [List.filter_eq_nil_iff]
  intro a ha
  have := List.find?_eq_none.mp h a ha
  simpa using this

/-- C6: for a course with a free slot and a student with no record on it,
Enroll–Drop–Enroll succeeds throughout and ends with the student holding
exactly one record, of status `'enrolled'`, and with the course's enrolled
count exactly one above its starting value (one capacity slot consumed). -/
theorem enroll_drop_enroll_single_slot (c : Course) (sid t1 t2 : Nat)
    (hcap : c.enrolledCount < c.capacity)
    (hnew : findEnrollment c.enrolledStudents sid = none) :
    enrollStudent c sid t1 = Except.ok (pushEnrollment c sid t1) ∧
    dropStudent (pushEnrollment c sid t1) sid = Except.ok (pushThenDrop c sid t1) ∧
    enrollStudent (pushThenDrop c sid t1) sid t2 = Except.ok (pushEnrollment c sid t2) ∧
    ((pushEnrollment c sid t2).enrolledStudents.filter
      (fun e => e.student == sid)).length = 1 ∧
    findEnrollment (pushEnrollment c sid t2).enrolledStudents sid =
      some ⟨sid, t2, EnrollStatus.enrolled⟩ ∧
    (pushEnrollment c sid t2).enrolledCount = c.enrolledCount + 1 := by
  refine ⟨?_, ?_, ?_, ?_, ?_, ?_⟩
  · simp only [enrollStudent, hnew]
    rw [if_neg (Nat.not_le.mpr hcap)]
    rfl
  · simp only [dropStudent, pushEnrollment, pushThenDrop,
      findEnrollment_append_of_none _ _ _ hnew, dropFirst_append_of_none _ _ _ hnew]
    simp [findEnrollment, dropFirst]
  · simp only [enrollStudent, pushEnrollment, pushThenDrop,
      findEnrollment_append_of_none _ _ _ hnew, reactivateFirst_append_of_none _ _ _ _ hnew]
    simp [findEnrollment, reactivateFirst]
  · simp [pushEnrollment, List.filter_append, filter_student_eq_nil_of_none _ _ hnew]
  · simp only [pushEnrollment, findEnrollment_append_of_none _ _ _ hnew]
    simp [findEnrollment]
  · simp [Course.enrolledCount, pushEnrollment, List.filter_append]

/-- C6 witness: on `w6Course` (capacity 2, one student enrolled, student 81
unknown), Enroll at t = 11, Drop, Enroll at t = 12 all succeed; student 81
ends with one `'enrolled'` record and the count rises from 1 to 2. -/
theorem enroll_drop_enroll_single_slot_witness :
    enrollStudent w6Course 81 11 = Except.ok (pushEnrollment w6Course 81 11) ∧
    dropStudent (pushEnrollment w6Course 81 11) 81 =
      Except.ok (pushThenDrop w6Course 81 11) ∧
    enrollStudent (pushThenDrop w6Course 81 11) 81 12 =
      Except.ok (pushEnrollment w6Course 81 12) ∧
    ((pushEnrollment w6Course 81 12).enrolledStudents.filter
      (fun e => e.student == 81)).length = 1 ∧
    findEnrollment (pushEnrollment w6Course 81 12).enrolledStudents 81 =
      some ⟨81, 12, EnrollStatus.enrolled⟩ ∧
    (pushEnrollment w6Course 81 12).enrolledCount = w6Course.enrolledCount + 1 :=
  enroll_drop_enroll_single_slot w6Course 81 11 12 (by decide) (by decide)

/-- C7: whenever `getAttendanceStats` answers the owning instructor, the
aggregation satisfies: `totalSessions` is the number of distinct calendar
dates among the course's records in range (records of dropped students
included — the filter looks only at course and date); the per-student rows
range exactly over the enrollments whose status is currently `'enrolled'`;
each row counts that student's records as `attendedSessions` and reports
`attendanceRate` as `attended / totalSessions` (as a percentage rounded to
two decimals), 0 when there are no sessions. -/
theorem attendance_stats_shape (findCourse : Nat → Option Course)
    (callerId courseId : Nat) (startDate endDate : Option Nat)
    (store : AttStore) (course : Course) (res : StatsResult)
    (hfind : findCourse courseId = some course)
    (hres : getAttendanceStats findCourse callerId courseId startDate endDate store =
      Except.ok res) :
    res.totalSessions =
      ((statsFilter course startDate endDate store).map
        (fun r => calendarDate r.date)).toFinset.card ∧
    res.studentStats.map (fun s => s.student) =
      (course.enrolledStudents.filter
        (fun e => e.status == EnrollStatus.enrolled)).map (fun e => e.student) ∧
    (∀ s ∈ res.studentStats,
      s.attendedSessions =
        (statsFilter course startDate endDate store).countP
          (fun r => r.studentId == s.student) ∧
      s.totalSessions = res.totalSessions ∧
      (res.totalSessions ≠ 0 →
        s.attendanceRate =
          round2 (((s.attendedSessions : ℚ) / (res.totalSessions : ℚ)) * 100)) ∧
      (res.totalSessions = 0 → s.attendanceRate = 0)) ∧
    (∀ r ∈ store.map Prod.snd, r.courseId = course.id →
      (∀ sd, startDate = some sd → sd ≤ r.date) →
      (∀ ed, endDate = some ed → r.date ≤ ed) →
      calendarDate r.date ∈
        ((statsFilter course startDate endDate store).map
          (fun r => calendarDate r.date)).toFinset) := by
  simp only [getAttendanceStats, hfind] at hres
  cases hc : (course.professor != callerId) with
  | true =>
    rw [hc] at hres
    exact absurd hres (by simp)
  | false =>
    rw [hc] at hres
    simp only [Bool.false_eq_true, if_false, Except.ok.injEq] at hres
    subst hres
    refine ⟨by simp [List.card_toFinset], by simp [List.map_map], ?_, ?_⟩
    · intro s hs
      obtain ⟨e, he, heq⟩ := List.mem_map.mp hs
      subst heq
      refine ⟨?_, rfl, ?_, ?_⟩
      · rw [List.countP_eq_length_filter]
      · intro ht
        have hpos : 0 < ((statsFilter course startDate endDate store).map
            (fun r => calendarDate r.date)).dedup.length := Nat.pos_of_ne_zero ht
        simp only [hpos, if_pos]
      · intro ht
        dsimp only at ht ⊢
        simp [ht, round2]
    · intro r hr hcid hsd hed
      rw [List.mem_toFinset]
      refine List.mem_map_of_mem _ ?_
      refine List.mem_filter.mpr ⟨hr, ?_⟩
      cases startDate with
      | none =>
        cases endDate with
        | none => simp [hcid]
        | some ed => simp [hcid, hed ed rfl]
      | some sd =>
        cases endDate with
        | none => simp [hcid, hsd sd rfl]
        | some ed => simp [hcid, hsd sd rfl, hed ed rfl]

/-- Evaluation of `getAttendanceStats` on the `w7Store` scenario. -/
theorem w7Res_eval :
    getAttendanceStats w7Find 9 11 none none w7Store = Except.ok w7Res := by
  simp only [getAttendanceStats,
    show w7Find 11 = some w7Course from rfl,
    show (w7Course.professor != 9) = false from rfl,
    Bool.false_eq_true, if_false, Except.ok.injEq, w7Res]
  norm_num [StatsResult.mk.injEq, StudentStat.mk.injEq, round2,
    statsFilter, w7Store, w7Course, calendarDate, msPerDay,
    show (EnrollStatus.dropped == EnrollStatus.enrolled) = false from rfl,
    show (EnrollStatus.enrolled == EnrollStatus.enrolled) = true from rfl,
    round_natCast, round_intCast]

/-- C7 witness: on `w7Store` (three records, one of them by the dropped
student 91 alone on day 1), the stats report 2 sessions; the per-student
rows cover only the enrolled student 90, with 1 attended session and rate
50; and the dropped student's day-1 record is among the counted session
dates. -/
theorem attendance_stats_shape_witness :
    w7Res.totalSessions = ((statsFilter w7Course none none w7Store).map
      (fun r => calendarDate r.date)).toFinset.card ∧
    w7Res.studentStats.map (fun s => s.student) =
      (w7Course.enrolledStudents.filter
        (fun e => e.status == EnrollStatus.enrolled)).map (fun e => e.student) ∧
    (∀ s ∈ w7Res.studentStats,
      s.attendedSessions = (statsFilter w7Course none none w7Store).countP
        (fun r => r.studentId == s.student) ∧
      s.totalSessions = w7Res.totalSessions ∧
      (w7Res.totalSessions ≠ 0 → s.attendanceRate =
        round2 (((s.attendedSessions : ℚ) / (w7Res.totalSessions : ℚ)) * 100)) ∧
      (w7Res.totalSessions = 0 → s.attendanceRate = 0)) ∧
    (∀ r ∈ w7Store.map Prod.snd, r.courseId = w7Course.id →
      (∀ sd, (none : Option Nat) = some sd → sd ≤ r.date) →
      (∀ ed, (none : Option Nat) = some ed → r.date ≤ ed) →
      calendarDate r.date ∈ ((statsFilter w7Course none none w7Store).map
        (fun r => calendarDate r.date)).toFinset) :=
  attendance_stats_shape w7Find 9 11 none none w7Store w7Course w7Res rfl w7Res_eval
